import Mathlib

/-!
Verification development for the HPOlibExperimentUtils optimizer wrapper
(`HPOlibExperimentUtils/core/optimizer.py`).

The file shallowly embeds the wrapper's control flow.  External engine calls
(hpbandster name server / worker / BOHB master, SMAC facade) are modelled by an
explicit environment record describing the outcome of each call, and the
wrapper's own Python code is translated statement by statement into functions
that return the produced value (or the propagated exception, as `Except`)
together with the list of observable events (engine construction, process
starts, shutdown calls, log messages).

Helpers that live in `HPOlibExperimentUtils/utils/` (`time_limit`,
`get_number_ta_runs`, `parse_fidelity_type`, `OptimizerEnum`) are not part of
the sources at hand; they are modelled from the specification and marked as
such in their doc comments.
-/

/-- Python exception values distinguished by the wrapper: the deadline signal
`TimeoutException`, the configuration `ValueError`, dictionary `KeyError`,
`TypeError`, and opaque engine-internal failures `runtimeError n`. -/
inductive PyErr
  | timeoutException
  | valueError
  | keyError
  | typeError
  | runtimeError (n : ℕ)
deriving DecidableEq

/-- Python values stored in the settings mappings and result dictionaries. -/
inductive Val
  | str (s : String)
  | int (z : ℤ)
  | rat (q : ℚ)
deriving DecidableEq

/-- A Python dictionary with string keys, as an association list; `List.lookup`
returns the first binding, and merges below preserve Python's
later-entry-wins lookup semantics. -/
abbrev PyDict := List (String × Val)

/-- The uniform optimizer settings mapping (section 3 of the design): keys
`output_dir`, `time_limit_in_s`, `cutoff_in_s`, `mem_limit_in_mb`,
`num_iterations`, `min_budget`, `max_budget`, `eta`. -/
structure OptimizerSettings where
  output_dir : String
  time_limit_in_s : ℕ
  cutoff_in_s : ℕ
  mem_limit_in_mb : ℕ
  num_iterations : ℕ
  min_budget : ℕ
  max_budget : ℕ
  eta : ℕ
deriving DecidableEq

/-- Outcome of running a callable under the deadline guard: either the
callable's value is returned unmodified, or the deadline signal is raised at
wall-clock time `t`. -/
inductive GuardOutcome (α : Type)
  | returns (v : α)
  | raisesAt (t : ℕ)
deriving DecidableEq

/-- Modelled from the spec: `time_limit` (from `utils/utils.py`, which is not
among the sources) wraps a blocking callable with a wall-clock deadline via a
cooperative alarm signal.  The callable is modelled by its completion time `t`
(seconds) and its value `v`; with deadline `d`, the guard returns `v`
unmodified when the callable completes at or before `d`, and otherwise raises
the deadline-exceeded signal exactly when the deadline elapses, at time `d`. -/
def time_limit (d t : ℕ) (v : α) : GuardOutcome α :=
  if t ≤ d then .returns v else .raisesAt d

/-- Number of rungs of the budget ladder `min_budget, min_budget * eta,
min_budget * eta ^ 2, ...` that do not exceed `max_budget`: one more than the
greatest exponent `k` with `min_budget * eta ^ k ≤ max_budget`.  The search
bound `max_budget` suffices because `eta ≥ 2` forces `eta ^ k ≥ k + 1`. -/
def numRungs (min_budget max_budget eta : ℕ) : ℕ :=
  Nat.findGreatest (fun k => min_budget * eta ^ k ≤ max_budget) max_budget + 1

/-- Modelled from the spec: `get_number_ta_runs` (from
`utils/optimizer_utils.py`, which is not among the sources) is the pure
budget-to-run-count translator: given a logical iteration count, a budget
ladder from `min_budget` to `max_budget` and an elimination factor `eta`, it
returns the total number of individual evaluations implied across all rungs of
the ladder for all iterations.  The spec fixes the ladder (rungs spaced by
factor `eta` between the two budgets) but not the engine's per-rung
configuration counts, so one evaluation per rung per iteration stands in for
that accounting. -/
def get_number_ta_runs (iterations min_budget max_budget eta : ℕ) : ℕ :=
  iterations * numRungs min_budget max_budget eta

lemma numRungs_pos (min_budget max_budget eta : ℕ) :
    0 < numRungs min_budget max_budget eta :=
  Nat.succ_pos _

lemma numRungs_anti_eta {min_budget max_budget e1 e2 : ℕ} (h : e1 ≤ e2) :
    numRungs min_budget max_budget e2 ≤ numRungs min_budget max_budget e1 := by
  unfold numRungs
  have mono := Nat.findGreatest_mono_left
    (P := fun k => min_budget * e2 ^ k ≤ max_budget)
    (Q := fun k => min_budget * e1 ^ k ≤ max_budget)
    (fun k hk => le_trans (Nat.mul_le_mul_left min_budget (Nat.pow_le_pow_left h k)) hk)
    max_budget
  omega

/-- C3: the deadline guard returns the value of a callable finishing strictly
before the deadline unmodified and raises nothing; for a callable running past
the deadline it raises the deadline-exceeded signal at a time no earlier than
the deadline; and a callable finishing exactly at the boundary still has its
value returned, with no spurious late signal. -/
theorem time_limit_deadline_guard_spec (d t v : ℕ) :
    (t < d → time_limit d t v = .returns v) ∧
    (d < t → ∃ r, time_limit d t v = .raisesAt r ∧ d ≤ r) ∧
    (t = d → time_limit d t v = .returns v) := by
  refine ⟨fun h => ?_, fun h => ?_, fun h => ?_⟩
  · simp [time_limit, Nat.le_of_lt h]
  · exact ⟨d, by simp [time_limit, Nat.not_le.mpr h], le_refl d⟩
  · simp [time_limit, h]

/-- Witness for C3 at deadline 5: a callable finishing at time 3 returns its
value 42, one finishing at time 9 triggers the signal at a time not before 5,
and one finishing exactly at time 5 still returns its value. -/
theorem time_limit_deadline_guard_spec_witness :
    time_limit 5 3 42 = .returns 42 ∧
    (∃ r, time_limit 5 9 42 = .raisesAt r ∧ 5 ≤ r) ∧
    time_limit 5 5 42 = .returns 42 :=
  ⟨(time_limit_deadline_guard_spec 5 3 42).1 (by decide),
   (time_limit_deadline_guard_spec 5 9 42).2.1 (by decide),
   (time_limit_deadline_guard_spec 5 5 42).2.2 (by decide)⟩

/-- C5 counterexample: the claim quantifies over all inputs with
`max_budget ≥ min_budget > 0` and `eta > 1` but leaves `num_iterations`
unconstrained; at `num_iterations = 0` (with `min_budget = 1`,
`max_budget = 27`, `eta = 3`, which satisfy every stated constraint) the
translator totals the evaluations of zero iterations, which is `0` and not a
positive integer. -/
theorem get_number_ta_runs_zero_iterations :
    (0 < 1 ∧ 1 ≤ 27 ∧ 1 < 3) ∧ ¬ 0 < get_number_ta_runs 0 1 27 3 := by
  refine ⟨by decide, ?_⟩
  simp [get_number_ta_runs]

/-- C5 (amended): for `num_iterations ≥ 1`, `max_budget ≥ min_budget > 0` and
`eta > 1`, the run-count translator returns a positive integer that is
monotonically non-decreasing in `num_iterations` and non-increasing in `eta`,
holding the other parameters fixed (it is a pure function of its four
arguments by construction). -/
theorem get_number_ta_runs_positive_monotone (i1 i2 min_budget max_budget e1 e2 : ℕ)
    (hiter : 1 ≤ i1) (hi : i1 ≤ i2)
    (hmin : 0 < min_budget) (hbud : min_budget ≤ max_budget)
    (he1 : 1 < e1) (he2 : 1 < e2) (he : e1 ≤ e2) :
    0 < get_number_ta_runs i1 min_budget max_budget e1 ∧
    get_number_ta_runs i1 min_budget max_budget e1 ≤
      get_number_ta_runs i2 min_budget max_budget e1 ∧
    get_number_ta_runs i1 min_budget max_budget e2 ≤
      get_number_ta_runs i1 min_budget max_budget e1 := by
  refine ⟨?_, ?_, ?_⟩
  · exact Nat.mul_pos hiter (numRungs_pos min_budget max_budget e1)
  · exact Nat.mul_le_mul_right _ hi
  · exact Nat.mul_le_mul_left i1 (numRungs_anti_eta he)

/-- Witness for C5 (amended) at `num_iterations` 2 against 3, budgets 1 to 27,
`eta` 2 against 3. -/
theorem get_number_ta_runs_positive_monotone_witness :
    0 < get_number_ta_runs 2 1 27 2 ∧
    get_number_ta_runs 2 1 27 2 ≤ get_number_ta_runs 3 1 27 2 ∧
    get_number_ta_runs 2 1 27 3 ≤ get_number_ta_runs 2 1 27 2 :=
  get_number_ta_runs_positive_monotone 2 3 1 27 2 3
    (by decide) (by decide) (by decide) (by decide) (by decide) (by decide) (by decide)

/-- Observable events of a wrapper run: the benchmark-adapter call made by the
base constructor, process/engine starts, warm-start timestamp normalisation,
the two shutdown calls of the bandit coordinator, SMAC scenario and engine
construction, the incumbent read, and informational log messages. -/
inductive Event
  | getConfigurationSpace
  | startNameServer
  | startWorker
  | startMaster
  | fixTimestamps (ref : ℤ)
  | masterShutdown
  | nsShutdown
  | buildScenario (runcountLimit wallclock cutoff memLimit : ℕ) (outputDir : String)
  | buildEngine
  | callOptimize
  | readIncumbent (inc : ℕ)
  | logInfo (msg : String)
deriving DecidableEq

/-- True for the event of building the SMAC scenario description. -/
def Event.isBuildScenario : Event → Bool
  | .buildScenario _ _ _ _ _ => true
  | _ => false

/-- True for the events that start an optimization engine (the SMAC facade or
the BOHB master). -/
def Event.isEngineStart : Event → Bool
  | .buildEngine => true
  | .startMaster => true
  | _ => false

/-- True for the events that allocate a process or a network resource (the
rendezvous name server or a worker). -/
def Event.isProcessStart : Event → Bool
  | .startNameServer => true
  | .startWorker => true
  | _ => false

/-- The benchmark adapter (external collaborator): a configuration space and
the objective function, which maps a configuration and keyword arguments to a
result dictionary.  Configurations are opaque and numbered. -/
structure Benchmark where
  configSpace : ℕ
  objective_function : ℕ → PyDict → PyDict

/-- State established by the base `Optimizer.__init__`: the stored
configuration space (obtained from the adapter), seed, the two settings
mappings and the intensifier request. -/
structure OptimizerState (ι : Type) where
  cs : ℕ
  rng : ℕ
  optimizer_settings : OptimizerSettings
  benchmark_settings : PyDict
  intensifier : ι
deriving DecidableEq

/-- Modelled from the spec: `OptimizerEnum` (from `utils/runner_utils.py`,
which is not among the sources) is the enumerated choice of optimizer or
early-stopping strategy; `HYPERBAND` and `SUCCESSIVE_HALVING` are the two
supported intensifier requests, and `BOHB` is a member of the enumeration that
is not a supported intensifier for the model-based coordinator. -/
inductive OptimizerEnum
  | BOHB
  | HYPERBAND
  | SUCCESSIVE_HALVING
deriving DecidableEq

/-- The two intensifier classes the model-based coordinator can instantiate. -/
inductive IntensifierClass
  | hyperband
  | successiveHalving
deriving DecidableEq

/-- Base `Optimizer.__init__`: stores the adapter's configuration space (one
call to `get_configuration_space`), the seed, both settings mappings and the
intensifier request. -/
def Optimizer.init (benchmark : Benchmark) (optimizer_settings : OptimizerSettings)
    (benchmark_settings : PyDict) (intensifier : OptimizerEnum) (rng : ℕ) :
    OptimizerState OptimizerEnum × List Event :=
  (⟨benchmark.configSpace, rng, optimizer_settings, benchmark_settings, intensifier⟩,
   [Event.getConfigurationSpace])

/-- `SMACOptimizer.__init__`: runs the base constructor, then resolves the
intensifier request to an intensifier class, raising `ValueError` for any
request other than `HYPERBAND` or `SUCCESSIVE_HALVING`. -/
def SMACOptimizer.init (benchmark : Benchmark) (optimizer_settings : OptimizerSettings)
    (benchmark_settings : PyDict) (intensifier : OptimizerEnum) (rng : ℕ) :
    Except PyErr (OptimizerState IntensifierClass) × List Event :=
  let base := Optimizer.init benchmark optimizer_settings benchmark_settings intensifier rng
  match intensifier with
  | .HYPERBAND =>
      (.ok ⟨base.1.cs, base.1.rng, base.1.optimizer_settings, base.1.benchmark_settings,
        .hyperband⟩, base.2)
  | .SUCCESSIVE_HALVING =>
      (.ok ⟨base.1.cs, base.1.rng, base.1.optimizer_settings, base.1.benchmark_settings,
        .successiveHalving⟩, base.2)
  | _ => (.error .valueError, base.2)

/-- C6: constructing a `SMACOptimizer` with an intensifier request that is
neither `HYPERBAND` nor `SUCCESSIVE_HALVING` raises `ValueError`
synchronously, and the constructor's event trace contains no scenario
construction, no engine start and no process or resource allocation. -/
theorem smac_init_unsupported_intensifier_raises (benchmark : Benchmark)
    (optimizer_settings : OptimizerSettings) (benchmark_settings : PyDict)
    (intensifier : OptimizerEnum) (rng : ℕ)
    (h1 : intensifier ≠ .HYPERBAND) (h2 : intensifier ≠ .SUCCESSIVE_HALVING) :
    (SMACOptimizer.init benchmark optimizer_settings benchmark_settings intensifier rng).1 =
      .error .valueError ∧
    ((SMACOptimizer.init benchmark optimizer_settings benchmark_settings intensifier
        rng).2.countP Event.isBuildScenario = 0 ∧
     (SMACOptimizer.init benchmark optimizer_settings benchmark_settings intensifier
        rng).2.countP Event.isEngineStart = 0 ∧
     (SMACOptimizer.init benchmark optimizer_settings benchmark_settings intensifier
        rng).2.countP Event.isProcessStart = 0) := by
  cases intensifier with
  | BOHB => simp [SMACOptimizer.init, Optimizer.init, List.countP, List.countP.go,
      Event.isBuildScenario, Event.isEngineStart, Event.isProcessStart]
  | HYPERBAND => exact absurd rfl h1
  | SUCCESSIVE_HALVING => exact absurd rfl h2

/-- Sample benchmark adapter used by concrete witnesses: configuration space 7
and an objective function that always answers with a result dictionary whose
`function_value` is 1. -/
def sampleBenchmark : Benchmark :=
  ⟨7, fun _ _ => [("function_value", Val.rat 1)]⟩

/-- Sample optimizer settings mapping used by concrete witnesses. -/
def sampleSettings : OptimizerSettings :=
  ⟨"out", 10, 3, 2048, 4, 1, 27, 3⟩

/-- Sample benchmark settings mapping used by concrete witnesses: an integer
fidelity named `epochs` plus one pass-through key. -/
def sampleBenchSettings : PyDict :=
  [("fidelity_name", Val.str "epochs"), ("fidelity_type", Val.str "int"),
   ("task", Val.str "cifar")]

/-- Witness for C6 at the unsupported request `BOHB`. -/
theorem smac_init_unsupported_intensifier_raises_witness :
    (SMACOptimizer.init sampleBenchmark sampleSettings sampleBenchSettings .BOHB 0).1 =
      .error .valueError ∧
    ((SMACOptimizer.init sampleBenchmark sampleSettings sampleBenchSettings .BOHB
        0).2.countP Event.isBuildScenario = 0 ∧
     (SMACOptimizer.init sampleBenchmark sampleSettings sampleBenchSettings .BOHB
        0).2.countP Event.isEngineStart = 0 ∧
     (SMACOptimizer.init sampleBenchmark sampleSettings sampleBenchSettings .BOHB
        0).2.countP Event.isProcessStart = 0) :=
  smac_init_unsupported_intensifier_raises sampleBenchmark sampleSettings
    sampleBenchSettings .BOHB 0 (by decide) (by decide)

/-- C10: the `SMACOptimizer` constructor calls the adapter's
`get_configuration_space` through the base constructor before validating the
intensifier request, so even a construction that fails with the
unsupported-intensifier `ValueError` has called the benchmark adapter exactly
once: its whole event trace is that single adapter call. -/
theorem smac_init_calls_configspace_before_validation (benchmark : Benchmark)
    (optimizer_settings : OptimizerSettings) (benchmark_settings : PyDict)
    (intensifier : OptimizerEnum) (rng : ℕ)
    (h1 : intensifier ≠ .HYPERBAND) (h2 : intensifier ≠ .SUCCESSIVE_HALVING) :
    (SMACOptimizer.init benchmark optimizer_settings benchmark_settings intensifier rng).2 =
      [Event.getConfigurationSpace] ∧
    (SMACOptimizer.init benchmark optimizer_settings benchmark_settings intensifier rng).1 =
      .error .valueError := by
  cases intensifier with
  | BOHB => exact ⟨rfl, rfl⟩
  | HYPERBAND => exact absurd rfl h1
  | SUCCESSIVE_HALVING => exact absurd rfl h2

/-- Witness for C10 at the unsupported request `BOHB`. -/
theorem smac_init_calls_configspace_before_validation_witness :
    (SMACOptimizer.init sampleBenchmark sampleSettings sampleBenchSettings .BOHB 3).2 =
      [Event.getConfigurationSpace] ∧
    (SMACOptimizer.init sampleBenchmark sampleSettings sampleBenchSettings .BOHB 3).1 =
      .error .valueError :=
  smac_init_calls_configspace_before_validation sampleBenchmark sampleSettings
    sampleBenchSettings .BOHB 3 (by decide) (by decide)

/-- One hpbandster iteration as the wrapper sees it: its opaque data payload
and, once `fix_timestamps` has run, the reference clock its timestamps were
normalised against. -/
structure Iteration where
  data : ℕ
  timeRefFixed : Option ℤ
deriving DecidableEq

/-- `iteration.fix_timestamps(time_ref)`: normalise the iteration's timestamps
relative to the optimizer's reference clock, leaving the payload unchanged. -/
def fix_timestamps (it : Iteration) (ref : ℤ) : Iteration :=
  { it with timeRefFixed := some ref }

/-- The engine's run-history structure (`hpres.Result`): the collected
iteration data and the master's configuration record, both opaque. -/
structure EngineResult where
  runs : List ℕ
  config : ℕ
deriving DecidableEq

/-- Decidable equality of `Except` values, used for the environment and
output records below. -/
instance instDecidableEqExcept [DecidableEq ε] [DecidableEq α] : DecidableEq (Except ε α)
  | .error a, .error b => decidable_of_iff (a = b) (by simp)
  | .error _, .ok _ => isFalse (by simp)
  | .ok _, .error _ => isFalse (by simp)
  | .ok a, .ok b => decidable_of_iff (a = b) (by simp)

/-- Environment of one `BOHBOptimizer.run`: how long `master.run` would block
and what it would produce, the master's iteration state at interruption time,
its reference clock and configuration record, and whether each of the two
shutdown calls raises. -/
structure BohbEnv where
  masterRunTime : ℕ
  masterRunResult : Except PyErr EngineResult
  iterations : List Iteration
  warmstart_iteration : List Iteration
  time_ref : ℤ
  config : ℕ
  masterShutdownErr : Option PyErr
  nsShutdownErr : Option PyErr
deriving DecidableEq

/-- `master.run` under the `time_limit` guard: if the blocking call finishes
within the deadline its own outcome (value or raised exception) stands,
otherwise the guard's deadline signal is raised as `TimeoutException`. -/
def guardedMasterRun (d : ℕ) (env : BohbEnv) : Except PyErr EngineResult :=
  match time_limit d env.masterRunTime env.masterRunResult with
  | .returns r => r
  | .raisesAt _ => .error .timeoutException

/-- The informational incumbent report logged by the bandit coordinator's
post-processing (content opaque, a function of the result). -/
def incumbentLogMsg (r : EngineResult) : String :=
  "Inc Config with Performance, run config " ++ toString r.config

/-- Everything one `BOHBOptimizer.run` produces: the returned path or the
propagated exception, the event trace, the warm-start iterations as left
behind, the result object (if one was assembled), and the two settings
mappings as the run leaves them. -/
structure BohbRunOut where
  ret : Except PyErr String
  events : List Event
  warmstart : List Iteration
  result : Option EngineResult
  optimizer_settings : OptimizerSettings
  benchmark_settings : PyDict
deriving DecidableEq

/-- The tail of `BOHBOptimizer.run` after the `try/except` block, translated
statement by statement: `master.shutdown(shutdown_workers=True)` runs first
and a raise there propagates at once (so `ns.shutdown` never runs and the
obtained result is lost); then `ns.shutdown()` likewise; then the
post-processing incumbent report; then `return output_dir`. -/
def teardownAndReturn (os : OptimizerSettings) (bs : PyDict) (evs : List Event)
    (ws : List Iteration) (result : Option EngineResult) (env : BohbEnv) : BohbRunOut :=
  match env.masterShutdownErr with
  | some e => ⟨.error e, evs ++ [Event.masterShutdown], ws, result, os, bs⟩
  | none =>
    match env.nsShutdownErr with
    | some e => ⟨.error e, evs ++ [Event.masterShutdown, Event.nsShutdown], ws, result, os, bs⟩
    | none =>
      match result with
      | some r =>
          ⟨.ok os.output_dir,
           evs ++ [Event.masterShutdown, Event.nsShutdown, Event.logInfo (incumbentLogMsg r)],
           ws, result, os, bs⟩
      | none =>
          ⟨.ok os.output_dir, evs ++ [Event.masterShutdown, Event.nsShutdown],
           ws, result, os, bs⟩

/-- `BOHBOptimizer.run`: start the name server, the worker and the master,
run the master under the deadline guard; on `TimeoutException` normalise every
warm-start iteration's timestamps with `master.time_ref`, assemble the
`Result` from completed-iteration data plus warm-start data and log the
wall-clock message; any other exception propagates immediately (no teardown);
then shut down master and name server and return `output_dir`. -/
def BOHBOptimizer.run (os : OptimizerSettings) (bs : PyDict) (env : BohbEnv) : BohbRunOut :=
  match guardedMasterRun os.time_limit_in_s env with
  | .ok r =>
      teardownAndReturn os bs [Event.startNameServer, Event.startWorker, Event.startMaster]
        env.warmstart_iteration (some r) env
  | .error e =>
      if e = PyErr.timeoutException then
        teardownAndReturn os bs
          ([Event.startNameServer, Event.startWorker, Event.startMaster] ++
            env.warmstart_iteration.map (fun _ => Event.fixTimestamps env.time_ref) ++
            [Event.logInfo "WALLCLOCK LIMIT REACHED"])
          (env.warmstart_iteration.map (fun it => fix_timestamps it env.time_ref))
          (some ⟨env.iterations.map (fun it => it.data) ++
              (env.warmstart_iteration.map (fun it => fix_timestamps it env.time_ref)).map
                (fun it => it.data),
            env.config⟩)
          env
      else
        ⟨.error e, [Event.startNameServer, Event.startWorker, Event.startMaster],
          env.warmstart_iteration, none, os, bs⟩

/-- Environment of one `SMACOptimizer.run`: the outcome of `smac.optimize()`,
the value of `smac.solver.incumbent`, and the engine-reported output directory
`smac.output_dir`. -/
structure SmacEnv where
  optimizeOutcome : Except PyErr Unit
  incumbent : ℕ
  engineOutputDir : String
deriving DecidableEq

/-- Everything one `SMACOptimizer.run` produces: returned path or propagated
exception, event trace, and the two settings mappings as the run leaves
them. -/
structure SmacRunOut where
  ret : Except PyErr String
  events : List Event
  optimizer_settings : OptimizerSettings
  benchmark_settings : PyDict
deriving DecidableEq

/-- `SMACOptimizer.run`: compute the run-count cap, build the scenario from
the settings, build the engine, call `smac.optimize()` inside `try`, read
`smac.solver.incumbent` in `finally`; on success log the incumbent report and
return `Path(smac.output_dir)`, on failure propagate the exception after the
`finally` read. -/
def SMACOptimizer.run (os : OptimizerSettings) (bs : PyDict) (env : SmacEnv) : SmacRunOut :=
  match env.optimizeOutcome with
  | .ok _ =>
      ⟨.ok env.engineOutputDir,
       [Event.buildScenario
          (get_number_ta_runs os.num_iterations os.min_budget os.max_budget os.eta)
          os.time_limit_in_s os.cutoff_in_s os.mem_limit_in_mb os.output_dir,
        Event.buildEngine, Event.callOptimize, Event.readIncumbent env.incumbent,
        Event.logInfo ("Finished Optimization. Incumbent is " ++ toString env.incumbent)],
       os, bs⟩
  | .error e =>
      ⟨.error e,
       [Event.buildScenario
          (get_number_ta_runs os.num_iterations os.min_budget os.max_budget os.eta)
          os.time_limit_in_s os.cutoff_in_s os.mem_limit_in_mb os.output_dir,
        Event.buildEngine, Event.callOptimize, Event.readIncumbent env.incumbent],
       os, bs⟩

/-- The benchmark's declared fidelity representation: integer (epoch counts)
or fractional (dataset fractions). -/
inductive FidelityType
  | fInt
  | fFloat
deriving DecidableEq

/-- Modelled from the spec: `parse_fidelity_type` (from
`utils/optimizer_utils.py`, which is not among the sources) resolves the
settings' fidelity-type tag to the representation the numeric budget is
coerced into: integer epoch count for the `int` tag, fractional otherwise. -/
def parse_fidelity_type : Val → FidelityType
  | .str "int" => .fInt
  | _ => .fFloat

/-- Python `int()` on a rational: truncation toward zero. -/
def pyInt (q : ℚ) : ℤ :=
  if 0 ≤ q then ⌊q⌋ else ⌈q⌉

/-- Coerce the engine's numeric budget into the declared fidelity type. -/
def coerceBudget : FidelityType → ℚ → Val
  | .fInt, b => .int (pyInt b)
  | .fFloat, b => .rat b

/-- Python's two-dictionary merge `{**a, **b}` where entries of `b` win:
keys of `a` that also occur in `b` are dropped, so lookups agree with
Python's later-entry-wins semantics (insertion order is not tracked). -/
def pyMerge (a b : PyDict) : PyDict :=
  a.filter (fun kv => ((b.lookup kv.1).isNone : Bool)) ++ b

/-- One recorded call to the benchmark adapter's `objective_function`: the
configuration and the keyword-argument dictionary it received. -/
structure ObjCall where
  cfg : ℕ
  kwargs : PyDict
deriving DecidableEq

/-- `optimization_function_wrapper(cfg, seed, instance, budget)` from
`SMACOptimizer.run`: resolve the fidelity type from the settings, build the
one-entry fidelity dictionary `{fidelity_name: fidelity_type(budget)}`, call
`objective_function(cfg, **fidelity, **benchmark_settings)` once, and return
the result dictionary's `function_value`.  The returned list records the
adapter calls made; a missing settings key raises `KeyError` before any call,
and a non-string fidelity name cannot be a keyword and raises `TypeError`. -/
def optimization_function_wrapper (benchmark : Benchmark) (benchmark_settings : PyDict)
    (cfg seed inst : ℕ) (budget : ℚ) : List ObjCall × Except PyErr Val :=
  match benchmark_settings.lookup "fidelity_type" with
  | none => ([], .error .keyError)
  | some tyv =>
    match benchmark_settings.lookup "fidelity_name" with
    | none => ([], .error .keyError)
    | some (Val.str fname) =>
        ([⟨cfg, pyMerge [(fname, coerceBudget (parse_fidelity_type tyv) budget)]
            benchmark_settings⟩],
         match (benchmark.objective_function cfg
            (pyMerge [(fname, coerceBudget (parse_fidelity_type tyv) budget)]
              benchmark_settings)).lookup "function_value" with
         | some v => .ok v
         | none => .error .keyError)
    | some _ => ([], .error .typeError)

/-- Concrete environment exhibiting the C1 teardown defect: `master.run`
completes within the deadline with a result, and `master.shutdown` raises. -/
def bohbTeardownFailEnv : BohbEnv :=
  ⟨1, .ok ⟨[5], 0⟩, [], [], 0, 0, some (.runtimeError 1), none⟩

/-- C1 (code defect): with the optimizer loop completed within budget and a
result in hand, an exception raised by `master.shutdown` propagates out of
`BOHBOptimizer.run` — the obtained result is masked — and `ns.shutdown` is
then never invoked at all (its call count is 0, not 1), because the teardown
is written after the `try/except` block instead of in a `finally` (the code's
own TODO notes it should be done "the same way as in smac: try with
finally"). -/
theorem bohb_teardown_exception_masks_result :
    (BOHBOptimizer.run sampleSettings sampleBenchSettings bohbTeardownFailEnv).result =
      some ⟨[5], 0⟩ ∧
    (BOHBOptimizer.run sampleSettings sampleBenchSettings bohbTeardownFailEnv).ret =
      .error (.runtimeError 1) ∧
    (BOHBOptimizer.run sampleSettings sampleBenchSettings
      bohbTeardownFailEnv).events.count Event.masterShutdown = 1 ∧
    (BOHBOptimizer.run sampleSettings sampleBenchSettings
      bohbTeardownFailEnv).events.count Event.nsShutdown = 0 := by
  decide

/-- C2: if `smac.optimize()` raises, the `finally` block still reads
`smac.solver.incumbent`, and the exception then propagates unchanged to the
caller. -/
theorem smac_incumbent_read_survives_failure (os : OptimizerSettings) (bs : PyDict)
    (env : SmacEnv) (e : PyErr) (h : env.optimizeOutcome = .error e) :
    Event.readIncumbent env.incumbent ∈ (SMACOptimizer.run os bs env).events ∧
    (SMACOptimizer.run os bs env).ret = .error e := by
  unfold SMACOptimizer.run
  rw [h]
  simp

/-- Concrete environment for the C2 witness: `smac.optimize()` raises an
engine-internal error. -/
def smacFailEnv : SmacEnv :=
  ⟨.error (.runtimeError 7), 11, "smac_out"⟩

/-- Witness for C2: with an injected engine failure, the incumbent read
appears in the trace and the failure is the returned exception. -/
theorem smac_incumbent_read_survives_failure_witness :
    Event.readIncumbent smacFailEnv.incumbent ∈
      (SMACOptimizer.run sampleSettings sampleBenchSettings smacFailEnv).events ∧
    (SMACOptimizer.run sampleSettings sampleBenchSettings smacFailEnv).ret =
      .error (.runtimeError 7) :=
  smac_incumbent_read_survives_failure sampleSettings sampleBenchSettings smacFailEnv
    (.runtimeError 7) rfl

/-- C4: on the timeout path (the guarded `master.run` outlives the deadline)
with teardown calls returning normally, the deadline signal is caught rather
than propagated, every warm-start iteration left behind has its timestamps
normalised relative to `master.time_ref`, the assembled result merges
completed-iteration data with warm-start data, the wall-clock-limit message
is logged, and the run still returns the output directory. -/
theorem bohb_timeout_path_recovers (os : OptimizerSettings) (bs : PyDict) (env : BohbEnv)
    (hto : os.time_limit_in_s < env.masterRunTime)
    (hms : env.masterShutdownErr = none) (hns : env.nsShutdownErr = none) :
    (∀ it ∈ (BOHBOptimizer.run os bs env).warmstart, it.timeRefFixed = some env.time_ref) ∧
    (BOHBOptimizer.run os bs env).result =
      some ⟨env.iterations.map (fun it => it.data) ++
        env.warmstart_iteration.map (fun it => it.data), env.config⟩ ∧
    Event.logInfo "WALLCLOCK LIMIT REACHED" ∈ (BOHBOptimizer.run os bs env).events ∧
    (BOHBOptimizer.run os bs env).ret = .ok os.output_dir := by
  have hg : guardedMasterRun os.time_limit_in_s env = .error .timeoutException := by
    unfold guardedMasterRun time_limit
    rw [if_neg (Nat.not_le.mpr hto)]
  refine ⟨?_, ?_, ?_, ?_⟩ <;>
    simp [BOHBOptimizer.run, hg, teardownAndReturn, hms, hns, fix_timestamps,
      List.map_map, Function.comp]

/-- Concrete environment for the C4 witness: the master would need 99 seconds
against a 10-second limit, with two completed iterations and one warm-start
iteration, reference clock 7 and no teardown failures. -/
def bohbTimeoutEnv : BohbEnv :=
  ⟨99, .ok ⟨[], 0⟩, [⟨1, none⟩, ⟨2, none⟩], [⟨3, none⟩], 7, 9, none, none⟩

/-- Witness for C4 on `bohbTimeoutEnv`: the warm-start iteration comes out
normalised against clock 7, the result merges iteration data `[1, 2]` with
warm-start data `[3]`, the wall-clock message is logged and the run returns
the configured output directory. -/
theorem bohb_timeout_path_recovers_witness :
    (∀ it ∈ (BOHBOptimizer.run sampleSettings sampleBenchSettings bohbTimeoutEnv).warmstart,
      it.timeRefFixed = some 7) ∧
    (BOHBOptimizer.run sampleSettings sampleBenchSettings bohbTimeoutEnv).result =
      some ⟨[1, 2, 3], 9⟩ ∧
    Event.logInfo "WALLCLOCK LIMIT REACHED" ∈
      (BOHBOptimizer.run sampleSettings sampleBenchSettings bohbTimeoutEnv).events ∧
    (BOHBOptimizer.run sampleSettings sampleBenchSettings bohbTimeoutEnv).ret = .ok "out" :=
  bohb_timeout_path_recovers sampleSettings sampleBenchSettings bohbTimeoutEnv
    (by decide) rfl rfl

/-- C7: for every call, the objective wrapper coerces the numeric budget to
the declared fidelity type, merges it under the fidelity-name key with the
full benchmark settings, invokes the adapter's `objective_function` exactly
once with that configuration and those keyword arguments, and returns the
`function_value` entry of the adapter's result dictionary (the settings are
assumed to declare the fidelity type and a string fidelity name that does not
collide with an existing settings key, and the adapter's answer to carry a
`function_value`). -/
theorem wrapper_single_adapter_call (benchmark : Benchmark) (bs : PyDict)
    (cfg seed inst : ℕ) (budget : ℚ) (tyv : Val) (fname : String) (fv : Val)
    (hty : bs.lookup "fidelity_type" = some tyv)
    (hname : bs.lookup "fidelity_name" = some (Val.str fname))
    (habsent : bs.lookup fname = none)
    (hfv : (benchmark.objective_function cfg
        (pyMerge [(fname, coerceBudget (parse_fidelity_type tyv) budget)] bs)).lookup
        "function_value" = some fv) :
    optimization_function_wrapper benchmark bs cfg seed inst budget =
      ([⟨cfg, pyMerge [(fname, coerceBudget (parse_fidelity_type tyv) budget)] bs⟩],
        .ok fv) ∧
    (pyMerge [(fname, coerceBudget (parse_fidelity_type tyv) budget)] bs).lookup fname =
      some (coerceBudget (parse_fidelity_type tyv) budget) := by
  constructor
  · unfold optimization_function_wrapper
    rw [hty, hname]
    simp [hfv]
  · unfold pyMerge
    simp [List.filter, habsent, List.lookup]

/-- Witness for C7: configuration 5 at budget 3 against the sample settings,
whose fidelity is the integer-typed `epochs`; the adapter is called once with
`epochs` bound to the truncated budget merged into the settings, and its
`function_value` of 1 is returned. -/
theorem wrapper_single_adapter_call_witness :
    optimization_function_wrapper sampleBenchmark sampleBenchSettings 5 0 0 3 =
      ([⟨5, pyMerge [("epochs", coerceBudget (parse_fidelity_type (Val.str "int")) 3)]
          sampleBenchSettings⟩], .ok (Val.rat 1)) ∧
    (pyMerge [("epochs", coerceBudget (parse_fidelity_type (Val.str "int")) 3)]
        sampleBenchSettings).lookup "epochs" =
      some (coerceBudget (parse_fidelity_type (Val.str "int")) 3) :=
  wrapper_single_adapter_call sampleBenchmark sampleBenchSettings 5 0 0 3
    (Val.str "int") "epochs" (Val.rat 1) rfl rfl rfl rfl

/-- Concrete environment exhibiting C8's failure: the engine reports its own
run-log directory `out/run_0` below the configured `out`. -/
def smacSubdirEnv : SmacEnv :=
  ⟨.ok (), 4, "out/run_0"⟩

/-- C8 counterexample: `SMACOptimizer.run` returns `Path(smac.output_dir)`,
the engine-reported artifact location, and when the engine reports a run
subdirectory this differs from the configured `output_dir`, contradicting the
claim that both coordinators return the configured `output_dir`. -/
theorem smac_run_returns_engine_dir_not_configured :
    (SMACOptimizer.run sampleSettings sampleBenchSettings smacSubdirEnv).ret =
      .ok "out/run_0" ∧
    (SMACOptimizer.run sampleSettings sampleBenchSettings smacSubdirEnv).ret ≠
      .ok sampleSettings.output_dir := by
  decide

/-- C8 (amended): when a run completes (normally, or for the bandit
coordinator also after timeout recovery, teardown succeeding), each
coordinator's run method returns the filesystem location of the engine's own
output artifacts — the configured `output_dir` for the bandit coordinator,
and the engine-reported run-log directory `Path(smac.output_dir)` (derived by
the engine from the configured `output_dir` but not necessarily equal to it)
for the model-based coordinator. -/
theorem run_returns_artifact_location (os : OptimizerSettings) (bs : PyDict)
    (senv : SmacEnv) (benv : BohbEnv) (r : EngineResult)
    (hs : senv.optimizeOutcome = .ok ())
    (hms : benv.masterShutdownErr = none) (hns : benv.nsShutdownErr = none)
    (hok : (benv.masterRunTime ≤ os.time_limit_in_s ∧ benv.masterRunResult = .ok r) ∨
      os.time_limit_in_s < benv.masterRunTime) :
    (SMACOptimizer.run os bs senv).ret = .ok senv.engineOutputDir ∧
    (BOHBOptimizer.run os bs benv).ret = .ok os.output_dir := by
  constructor
  · unfold SMACOptimizer.run
    rw [hs]
  · rcases hok with ⟨hle, hres⟩ | hlt
    · have hg : guardedMasterRun os.time_limit_in_s benv = .ok r := by
        unfold guardedMasterRun time_limit
        rw [if_pos hle, hres]
      simp [BOHBOptimizer.run, hg, teardownAndReturn, hms, hns]
    · exact (bohb_timeout_path_recovers os bs benv hlt hms hns).2.2.2

/-- Concrete environment for the C8 witness on the bandit side: the master
finishes in 2 seconds with an empty result and teardown succeeds. -/
def bohbCompleteEnv : BohbEnv :=
  ⟨2, .ok ⟨[4], 1⟩, [], [], 0, 1, none, none⟩

/-- Witness for C8 (amended): the model-based run returns the engine-reported
`out/run_0`, the bandit run returns the configured `out`. -/
theorem run_returns_artifact_location_witness :
    (SMACOptimizer.run sampleSettings sampleBenchSettings smacSubdirEnv).ret =
      .ok smacSubdirEnv.engineOutputDir ∧
    (BOHBOptimizer.run sampleSettings sampleBenchSettings bohbCompleteEnv).ret =
      .ok sampleSettings.output_dir :=
  run_returns_artifact_location sampleSettings sampleBenchSettings smacSubdirEnv
    bohbCompleteEnv ⟨[4], 1⟩ rfl rfl rfl (Or.inl ⟨by decide, rfl⟩)

lemma teardownAndReturn_settings (os : OptimizerSettings) (bs : PyDict) (evs : List Event)
    (ws : List Iteration) (result : Option EngineResult) (env : BohbEnv) :
    (teardownAndReturn os bs evs ws result env).optimizer_settings = os ∧
    (teardownAndReturn os bs evs ws result env).benchmark_settings = bs := by
  unfold teardownAndReturn
  repeat' split
  all_goals exact ⟨rfl, rfl⟩

/-- C9: on every exit path of either coordinator's run method, the optimizer
settings mapping and the benchmark settings mapping come out of the run
exactly as they went in — the run reads them but never writes to them. -/
theorem run_preserves_settings (os : OptimizerSettings) (bs : PyDict)
    (benv : BohbEnv) (senv : SmacEnv) :
    (BOHBOptimizer.run os bs benv).optimizer_settings = os ∧
    (BOHBOptimizer.run os bs benv).benchmark_settings = bs ∧
    (SMACOptimizer.run os bs senv).optimizer_settings = os ∧
    (SMACOptimizer.run os bs senv).benchmark_settings = bs := by
  have hsmac : (SMACOptimizer.run os bs senv).optimizer_settings = os ∧
      (SMACOptimizer.run os bs senv).benchmark_settings = bs := by
    unfold SMACOptimizer.run
    repeat' split
    all_goals exact ⟨rfl, rfl⟩
  have hbohb : (BOHBOptimizer.run os bs benv).optimizer_settings = os ∧
      (BOHBOptimizer.run os bs benv).benchmark_settings = bs := by
    unfold BOHBOptimizer.run
    repeat' split
    · exact teardownAndReturn_settings os bs _ _ _ benv
    · exact teardownAndReturn_settings os bs _ _ _ benv
    · exact ⟨rfl, rfl⟩
  exact ⟨hbohb.1, hbohb.2, hsmac.1, hsmac.2⟩
